import Mathlib

/-!
Shallow embedding of the gogeos `geos` package (src/geos/geos.go).

The GEOS C engine is a black box; we model it as an oracle (`Engine`): a
record of functions standing for the `GEOS*_r` calls the facade makes.
Native handles and engine contexts are modelled as `Nat` identifiers.
Every facade operation returns its result together with the ordered list
of `Event`s it performed (engine calls and wrapper allocations), so that
"performs no engine call" is a statement about the returned trace.

Go `*Geometry` pointers are modelled as `Option Geometry` (a nil pointer
is `none`); a `Geometry` whose `geom` field is `none` models a wrapper
holding a nil native handle.  Go's mutation of `g.geom` / `s.context` is
modelled by explicit state passing: `destroy` and `Close` return the
updated record.  Mutex acquisition is invisible in this sequential
embedding (the code under a lock runs atomically here).
-/

namespace Gogeos

/-- Errors returned by the facade; one constructor per distinct error the
Go code constructs (`errors.New` / `fmt.Errorf`). -/
inductive GeosError where
  | engineNotInitialized
  | invalidGeometry
  | noGeometriesProvided
  | emptyWKT
  | noGeometryProvided
  | missingType
  | missingCoordinates
  | geoJSONConversionFailed (msg : String)
  | parseFailed (wkt : String)
  | invalidGeometryWKT (wkt : String)
  | toWKTFailed
  | withinFailed
  | intersectsFailed
  | distanceFailed
  | bufferFailed
  | simplifyFailed
  | unionFailed
  | differenceFailed
deriving DecidableEq, Repr

/-- The spec's `EmptyInput` error category: the empty-or-absent-input
errors ("empty WKT string", "no geometry provided: ...",
"no geometries provided"). -/
def GeosError.isEmptyInput : GeosError → Bool
  | .emptyWKT => true
  | .noGeometryProvided => true
  | .noGeometriesProvided => true
  | _ => false

/-- The spec's `InvalidGeometry` error category: "invalid geometry"
(nil/dead operand) and "invalid geometry: %s" (validity-check failure
in ParseGeometry). -/
def GeosError.isInvalidGeometry : GeosError → Bool
  | .invalidGeometry => true
  | .invalidGeometryWKT _ => true
  | _ => false

/-- Observable actions of an operation: calls into the GEOS engine plus
wrapper allocations (`newGeometry`). -/
inductive Event where
  | engineParse (ctx : Nat) (wkt : String)
  | engineIsValid (ctx h : Nat)
  | engineDestroy (ctx h : Nat)
  | engineToWKT (ctx h : Nat)
  | engineWithin (ctx a b : Nat)
  | engineIntersects (ctx a b : Nat)
  | engineDistance (ctx a b : Nat)
  | engineBuffer (ctx h : Nat)
  | engineSimplify (ctx h : Nat)
  | engineUnion (ctx : Nat) (a : Option Nat) (b : Nat)
  | engineDifference (ctx a b : Nat)
  | engineFinish (ctx : Nat)
  | allocGeometry (h : Nat)
deriving DecidableEq, Repr

/-- Whether an event is a call into the engine (everything except the
pure-Go wrapper allocation). -/
def Event.isEngineCall : Event → Bool
  | .allocGeometry _ => false
  | _ => true

/-- Result of a facade operation: success, an error return, or a Go
nil-pointer dereference panic (reachable in Union's fold when the running
result pointer is nil). -/
inductive Outcome (α : Type) where
  | ok (a : α)
  | err (e : GeosError)
  | crashed
deriving DecidableEq, Repr

/-- The engine oracle: one function per `GEOS*_r` call shape the facade
uses.  `isValid` returns the C char (0 = invalid); `within`/`intersects`
return the ternary sentinel (0/1/2, 2 = error); handle-returning calls
return `none` for a NULL result; `distance` returns `none` when the
engine's success flag is 0.  `union`'s first geometry argument is nullable
because the Go code can pass `result.geom` when it is nil. -/
structure Engine where
  parseWKT : Nat → String → Option Nat
  isValid : Nat → Nat → Nat
  toWKT : Nat → Nat → Option String
  within : Nat → Nat → Nat → Nat
  intersects : Nat → Nat → Nat → Nat
  distance : Nat → Nat → Nat → Option Float
  buffer : Nat → Nat → Float → Option Nat
  simplify : Nat → Nat → Float → Option Nat
  union : Nat → Option Nat → Nat → Option Nat
  difference : Nat → Nat → Nat → Option Nat

/-- State of a `Service`: the GEOS context handle (`nil` ⇒ `none`) and
whether the runtime finalizer installed by `NewService` is still set. -/
structure ServiceState where
  context : Option Nat
  hasFinalizer : Bool
deriving DecidableEq, Repr

/-- State of a `Geometry` wrapper: an allocation identity (to express Go
pointer identity), the native handle field `geom` (`nil` ⇒ `none`), and
whether its runtime finalizer is still set. -/
structure Geometry where
  id : Nat
  geom : Option Nat
  hasFinalizer : Bool
deriving DecidableEq, Repr

/-- The handle of a possibly-nil geometry pointer: `none` when the pointer
is nil or the wrapper's `geom` field is nil (the operand guard
`g == nil || g.geom == nil` of the Go operations). -/
def geomHandle : Option Geometry → Option Nat
  | none => none
  | some g => g.geom

/-- Service.Close: under the exclusive lock, if the context is non-nil,
`GEOS_finish_r` it and set it to nil; always clear the finalizer. -/
def closeService (s : ServiceState) : ServiceState × List Event :=
  match s.context with
  | some c => ({ context := none, hasFinalizer := false }, [.engineFinish c])
  | none => ({ s with hasFinalizer := false }, [])

/-- Geometry.destroy: if `g.geom != nil && g.service != nil &&
g.service.context != nil`, then (re-checking the context under the shared
lock) `GEOSGeom_destroy_r` the handle and set `g.geom = nil`; always clear
the geometry's finalizer.  The owning service is passed explicitly
(`none` models a nil `g.service` pointer). -/
def destroy (service : Option ServiceState) (g : Geometry) : Geometry × List Event :=
  match g.geom with
  | some h =>
    match service with
    | some s =>
      match s.context with
      | some c => ({ g with geom := none, hasFinalizer := false }, [.engineDestroy c h])
      | none => ({ g with hasFinalizer := false }, [])
    | none => ({ g with hasFinalizer := false }, [])
  | none => ({ g with hasFinalizer := false }, [])

/-! ## Input normalisation (GeoJSON → WKT) -/

/-- Dynamic values stored in a Go `map[string]interface{}` / `[]interface{}`
GeoJSON description.  Numeric payloads (Go `float64`) are carried as
integers: no claim depends on fractional values, only on whether the
`.(float64)` type assertion succeeds, which is `.num`-ness here. -/
inductive JSON where
  | null
  | bool (b : Bool)
  | num (x : Int)
  | str (s : String)
  | arr (xs : List JSON)

/-- The Go `v.(float64)` type assertion: succeeds exactly on numeric
payloads. -/
def asFloat : JSON → Option Int
  | .num x => some x
  | _ => none

/-- Rendering of `fmt.Sprintf("%f", x)` for our integer stand-ins for
float64 values: fixed-point with six fractional digits. -/
def fmtFloat (x : Int) : String := toString x ++ ".000000"

/-- The per-coordinate extraction the Go loops perform: the coordinate
must be a sequence (`.([]interface{})`) of length ≥ 2 whose first two
elements pass the float64 assertion. -/
def extractXY : JSON → Option (Int × Int)
  | .arr ca =>
    if 2 ≤ ca.length then
      match asFloat (ca.getD 0 .null), asFloat (ca.getD 1 .null) with
      | some x, some y => some (x, y)
      | _, _ => none
    else none
  | _ => none

/-- One iteration of the Polygon/LineString coordinate loop: a coordinate
that fails extraction contributes nothing (it is silently skipped); a
coordinate at index `i > 0` is prefixed by ", " (note: the original index,
even if earlier coordinates were skipped, exactly as in the source). -/
def coordItem (i : Nat) (c : JSON) : String :=
  match extractXY c with
  | some (x, y) => (if 0 < i then ", " else "") ++ fmtFloat x ++ " " ++ fmtFloat y
  | none => ""

/-- The coordinate loop of the Polygon/LineString cases, indexed from 0. -/
def coordLoopAux (i : Nat) : List JSON → String
  | [] => ""
  | c :: rest => coordItem i c ++ coordLoopAux (i + 1) rest

/-- String built by iterating `coordItem` over a coordinate sequence. -/
def coordLoop (items : List JSON) : String := coordLoopAux 0 items

/-- The "Point" case of geoJSONToWKT: the coordinates value itself must
be a sequence of length ≥ 2 whose first two elements pass the float64
assertion, else the conversion fails. -/
def pointToWKT (coords : JSON) : Except String String :=
  match extractXY coords with
  | some (x, y) => .ok ("POINT(" ++ fmtFloat x ++ " " ++ fmtFloat y ++ ")")
  | none => .error "invalid Point coordinates"

/-- The "Polygon" case of geoJSONToWKT: the coordinates value must be a
non-empty sequence of rings whose first ring is a sequence of length ≥ 4;
only that first ring is rendered. -/
def polygonToWKT (coords : JSON) : Except String String :=
  match coords with
  | .arr (first :: _) =>
    match first with
    | .arr ring =>
      if 4 ≤ ring.length then .ok ("POLYGON((" ++ coordLoop ring ++ "))")
      else .error "invalid Polygon coordinates"
    | _ => .error "invalid Polygon coordinates"
  | _ => .error "invalid Polygon coordinates"

/-- The "LineString" case of geoJSONToWKT: the coordinates value must be
a sequence of length ≥ 2. -/
def lineStringToWKT (coords : JSON) : Except String String :=
  match coords with
  | .arr cs =>
    if 2 ≤ cs.length then .ok ("LINESTRING(" ++ coordLoop cs ++ ")")
    else .error "invalid LineString coordinates"
  | _ => .error "invalid LineString coordinates"

/-- geoJSONToWKT: converts a GeoJSON `type` plus `coordinates` value to
WKT, dispatching on the type exactly as the source's switch; any other
type is unsupported.  Returns the error strings of the source. -/
def geoJSONToWKT (geoType : String) (coords : JSON) : Except String String :=
  match geoType with
  | "Point" => pointToWKT coords
  | "Polygon" => polygonToWKT coords
  | "LineString" => lineStringToWKT coords
  | other => .error ("unsupported GeoJSON type: " ++ other)

/-! ## ParseGeometry -/

/-- GeometryInput: `wkt` (Go zero value "" when absent) and the GeoJSON
map (`none` models a nil map), as a list of key/value fields. -/
structure GeometryInput where
  wkt : String
  geoJSON : Option (List (String × JSON))

/-- Go map lookup `m[k]` (first binding wins). -/
def lookupField : List (String × JSON) → String → Option JSON
  | [], _ => none
  | (k, v) :: rest, key => if k = key then some v else lookupField rest key

/-- The input-normalisation prefix of ParseGeometry: prefer non-empty WKT;
otherwise convert GeoJSON (requiring a string `type` field and a present
`coordinates` field); with neither, fail. -/
def normalizeWKT (input : GeometryInput) : Except GeosError String :=
  if input.wkt ≠ "" then .ok input.wkt
  else
    match input.geoJSON with
    | some fields =>
      match lookupField fields "type" with
      | some (.str geoType) =>
        match lookupField fields "coordinates" with
        | some coords =>
          match geoJSONToWKT geoType coords with
          | .ok w => .ok w
          | .error msg => .error (.geoJSONConversionFailed msg)
        | none => .error .missingCoordinates
      | _ => .error .missingType
    | none => .error .noGeometryProvided

/-- ParseGeometry: context guard, input normalisation, empty-WKT guard,
`GEOSGeomFromWKT_r`, `GEOSisValid_r` (destroying the fresh handle when the
check returns 0), and wrapping via `newGeometry` (which installs a
finalizer).  `fresh` is the allocation id given to a new wrapper. -/
def parseGeometry (eng : Engine) (s : ServiceState) (input : GeometryInput)
    (fresh : Nat) : Outcome Geometry × List Event :=
  match s.context with
  | none => (.err .engineNotInitialized, [])
  | some c =>
    match normalizeWKT input with
    | .error e => (.err e, [])
    | .ok wkt =>
      if wkt.length = 0 then (.err .emptyWKT, [])
      else
        match eng.parseWKT c wkt with
        | none => (.err (.parseFailed wkt), [.engineParse c wkt])
        | some h =>
          if eng.isValid c h = 0 then
            (.err (.invalidGeometryWKT wkt),
             [.engineParse c wkt, .engineIsValid c h, .engineDestroy c h])
          else
            (.ok { id := fresh, geom := some h, hasFinalizer := true },
             [.engineParse c wkt, .engineIsValid c h, .allocGeometry h])

/-! ## Geometry-consuming operations -/

/-- ToWKT: operand guard, context guard, `GEOSGeomToWKT_r`. -/
def toWKTOp (eng : Engine) (s : ServiceState) (g : Option Geometry) :
    Outcome String × List Event :=
  match geomHandle g with
  | none => (.err .invalidGeometry, [])
  | some h =>
    match s.context with
    | none => (.err .engineNotInitialized, [])
    | some c =>
      match eng.toWKT c h with
      | none => (.err .toWKTFailed, [.engineToWKT c h])
      | some w => (.ok w, [.engineToWKT c h])

/-- Within: operand guards, context guard, `GEOSWithin_r` with ternary
sentinel (2 = error). -/
def withinOp (eng : Engine) (s : ServiceState) (a b : Option Geometry) :
    Outcome Bool × List Event :=
  match geomHandle a, geomHandle b with
  | some ha, some hb =>
    match s.context with
    | none => (.err .engineNotInitialized, [])
    | some c =>
      let r := eng.within c ha hb
      if r = 2 then (.err .withinFailed, [.engineWithin c ha hb])
      else (.ok (r = 1), [.engineWithin c ha hb])
  | _, _ => (.err .invalidGeometry, [])

/-- Intersects: same shape as Within with `GEOSIntersects_r`. -/
def intersectsOp (eng : Engine) (s : ServiceState) (a b : Option Geometry) :
    Outcome Bool × List Event :=
  match geomHandle a, geomHandle b with
  | some ha, some hb =>
    match s.context with
    | none => (.err .engineNotInitialized, [])
    | some c =>
      let r := eng.intersects c ha hb
      if r = 2 then (.err .intersectsFailed, [.engineIntersects c ha hb])
      else (.ok (r = 1), [.engineIntersects c ha hb])
  | _, _ => (.err .invalidGeometry, [])

/-- Distance: operand guards, context guard, `GEOSDistance_r` returning a
value plus success flag (`none` = flag 0). -/
def distanceOp (eng : Engine) (s : ServiceState) (a b : Option Geometry) :
    Outcome Float × List Event :=
  match geomHandle a, geomHandle b with
  | some ha, some hb =>
    match s.context with
    | none => (.err .engineNotInitialized, [])
    | some c =>
      match eng.distance c ha hb with
      | none => (.err .distanceFailed, [.engineDistance c ha hb])
      | some d => (.ok d, [.engineDistance c ha hb])
  | _, _ => (.err .invalidGeometry, [])

/-- Buffer: operand guard, context guard, `GEOSBuffer_r`, wrapping the new
handle. -/
def bufferOp (eng : Engine) (s : ServiceState) (g : Option Geometry)
    (radius : Float) (fresh : Nat) : Outcome Geometry × List Event :=
  match geomHandle g with
  | none => (.err .invalidGeometry, [])
  | some h =>
    match s.context with
    | none => (.err .engineNotInitialized, [])
    | some c =>
      match eng.buffer c h radius with
      | none => (.err .bufferFailed, [.engineBuffer c h])
      | some u =>
        (.ok { id := fresh, geom := some u, hasFinalizer := true },
         [.engineBuffer c h, .allocGeometry u])

/-- Simplify: operand guard, context guard, `GEOSSimplify_r`, wrapping the
new handle. -/
def simplifyOp (eng : Engine) (s : ServiceState) (g : Option Geometry)
    (tolerance : Float) (fresh : Nat) : Outcome Geometry × List Event :=
  match geomHandle g with
  | none => (.err .invalidGeometry, [])
  | some h =>
    match s.context with
    | none => (.err .engineNotInitialized, [])
    | some c =>
      match eng.simplify c h tolerance with
      | none => (.err .simplifyFailed, [.engineSimplify c h])
      | some u =>
        (.ok { id := fresh, geom := some u, hasFinalizer := true },
         [.engineSimplify c h, .allocGeometry u])

/-- Difference: operand guards, context guard, `GEOSDifference_r`,
wrapping the new handle. -/
def differenceOp (eng : Engine) (s : ServiceState) (a b : Option Geometry)
    (fresh : Nat) : Outcome Geometry × List Event :=
  match geomHandle a, geomHandle b with
  | some ha, some hb =>
    match s.context with
    | none => (.err .engineNotInitialized, [])
    | some c =>
      match eng.difference c ha hb with
      | none => (.err .differenceFailed, [.engineDifference c ha hb])
      | some u =>
        (.ok { id := fresh, geom := some u, hasFinalizer := true },
         [.engineDifference c ha hb, .allocGeometry u])
  | _, _ => (.err .invalidGeometry, [])

/-! ## Union -/

/-- The fold of Union over `geometries[1:]`: a nil entry or an entry with
a nil handle is skipped (`continue`); otherwise `GEOSUnion_r(ctx,
result.geom, entry.geom)` is called — dereferencing `result.geom` panics
when the running result pointer is nil — and a nil engine result aborts
with the union error, else the result is wrapped by `newGeometry`. -/
def unionFold (eng : Engine) (c : Nat) (fresh : Nat) (result : Option Geometry) :
    List (Option Geometry) → List Event → Outcome (Option Geometry) × List Event
  | [], acc => (.ok result, acc)
  | gi :: rest, acc =>
    match geomHandle gi with
    | none => unionFold eng c fresh result rest acc
    | some h =>
      match result with
      | none => (.crashed, acc)
      | some r =>
        match eng.union c r.geom h with
        | none => (.err .unionFailed, acc ++ [.engineUnion c r.geom h])
        | some u =>
          unionFold eng c (fresh + 1)
            (some { id := fresh, geom := some u, hasFinalizer := true }) rest
            (acc ++ [.engineUnion c r.geom h, .allocGeometry u])

/-- Union: empty input errors; a singleton returns its sole entry directly
(before the lock and the context guard); otherwise, after the context
guard, left-fold pairwise union starting from `geometries[0]`. -/
def unionOp (eng : Engine) (s : ServiceState) (geometries : List (Option Geometry))
    (fresh : Nat) : Outcome (Option Geometry) × List Event :=
  match geometries with
  | [] => (.err .noGeometriesProvided, [])
  | [g] => (.ok g, [])
  | g0 :: rest =>
    match s.context with
    | none => (.err .engineNotInitialized, [])
    | some c => unionFold eng c fresh g0 rest []

/-- A concrete engine oracle used by witnesses and counterexamples. -/
def testEngine : Engine where
  parseWKT := fun _ w => if w = "BAD" then none else some 1
  isValid := fun _ h => if h = 9 then 0 else 1
  toWKT := fun _ _ => some "POINT (1 2)"
  within := fun _ _ _ => 1
  intersects := fun _ _ _ => 0
  distance := fun _ _ _ => some 5.0
  buffer := fun _ _ _ => some 2
  simplify := fun _ _ _ => some 3
  union := fun _ _ _ => some 4
  difference := fun _ _ _ => some 5

/-! ## Theorems -/

/-- Claim C4 (confirmed): Service.Close is idempotent — a second
consecutive Close is a no-op (no engine teardown call, state unchanged,
and Close has no error channel at all); Close calls the engine's finish
only when the context is non-null and sets the context to null. -/
theorem close_idempotent (s : ServiceState) :
    closeService (closeService s).1 = ((closeService s).1, [])
    ∧ (closeService s).1.context = none
    ∧ (s.context = none → closeService s = ({ s with hasFinalizer := false }, []))
    ∧ (∀ c, s.context = some c →
        closeService s = ({ context := none, hasFinalizer := false }, [.engineFinish c])) := by
  rcases hs : s.context with _ | c <;>
    simp [closeService, hs]

/-- Witness for `close_idempotent` at the service with context handle 3. -/
theorem close_idempotent_witness :
    closeService (closeService { context := some 3, hasFinalizer := true }).1
      = ((closeService { context := some 3, hasFinalizer := true }).1, [])
    ∧ closeService { context := some 3, hasFinalizer := true }
      = ({ context := none, hasFinalizer := false }, [.engineFinish 3]) :=
  ⟨(close_idempotent { context := some 3, hasFinalizer := true }).1,
   (close_idempotent { context := some 3, hasFinalizer := true }).2.2.2 3 rfl⟩

/-- Claim C5 (confirmed): running a Geometry's destroy twice behaves
identically to running it once — the second invocation leaves the state
exactly as after the first, performs no engine call at all (empty event
trace), and destroy has no error channel. -/
theorem destroy_idempotent (service : Option ServiceState) (g : Geometry) :
    destroy service (destroy service g).1 = ((destroy service g).1, []) := by
  rcases g with ⟨i, gg, f⟩
  rcases gg with _ | h <;> rcases service with _ | s <;> try simp [destroy]
  rcases hs : s.context with _ | c <;> simp [destroy, hs]

/-- Claim C6 (confirmed): Union on a one-element list returns the very
entry it was given (the same object, with no engine call and no wrapper
allocation — empty event trace), and Union on the empty list fails with
the EmptyInput error "no geometries provided". -/
theorem union_identity_law (eng : Engine) (s : ServiceState) (g : Option Geometry)
    (fresh : Nat) :
    unionOp eng s [g] fresh = (.ok g, [])
    ∧ unionOp eng s [] fresh = (.err .noGeometriesProvided, []) :=
  ⟨rfl, rfl⟩

/-- Claim C1 counterexample: after Close, Union on a singleton list
returns the geometry successfully (no engine call), not the
EngineNotInitialized error the claim requires for every operation. -/
theorem union_after_close_counterexample :
    unionOp testEngine (closeService { context := some 0, hasFinalizer := true }).1
        [some { id := 1, geom := some 7, hasFinalizer := true }] 10
      = (.ok (some { id := 1, geom := some 7, hasFinalizer := true }), [])
    ∧ Outcome.ok (some { id := 1, geom := some 7, hasFinalizer := true })
        ≠ Outcome.err (α := Option Geometry) .engineNotInitialized :=
  ⟨rfl, by decide⟩

/-- Claim C2 counterexample: Union over a list whose second entry has a
nil native handle skips that entry and succeeds with no engine call,
instead of returning the InvalidGeometry error the claim requires. -/
theorem union_skips_dead_entry_counterexample :
    unionOp testEngine { context := some 0, hasFinalizer := true }
        [some { id := 1, geom := some 7, hasFinalizer := true },
         some { id := 2, geom := none, hasFinalizer := true }] 5
      = (.ok (some { id := 1, geom := some 7, hasFinalizer := true }), [])
    ∧ Outcome.ok (some { id := 1, geom := some 7, hasFinalizer := true })
        ≠ Outcome.err (α := Option Geometry) .invalidGeometry :=
  ⟨rfl, by decide⟩

/-- Claim C3 counterexample: destroying a geometry whose owning service
has already been torn down leaves the native handle field unchanged
(still handle 5), not null as the claim states. -/
theorem destroy_after_teardown_counterexample :
    (destroy (some { context := none, hasFinalizer := false })
        { id := 0, geom := some 5, hasFinalizer := true }).1.geom = some 5
    ∧ (some 5 : Option Nat) ≠ none :=
  ⟨rfl, by decide⟩

/-- Claim C1 (amended): after Teardown, an operation returns
EngineNotInitialized with no engine call once it gets past its earlier
guards: ParseGeometry unconditionally; ToWKT, Within, Intersects,
Distance, Buffer, Simplify, Difference when their Geometry operands are
non-null with non-null handles; Union when the list has length ≥ 2.
Union's pre-lock short-circuits still apply after teardown: the empty
list returns EmptyInput and a singleton returns its entry successfully. -/
theorem post_teardown_operations_amended (eng : Engine) (s : ServiceState)
    (hs : s.context = none) :
    (∀ input fresh, parseGeometry eng s input fresh = (.err .engineNotInitialized, []))
    ∧ (∀ g h, geomHandle g = some h →
        toWKTOp eng s g = (.err .engineNotInitialized, []))
    ∧ (∀ a b ha hb, geomHandle a = some ha → geomHandle b = some hb →
        withinOp eng s a b = (.err .engineNotInitialized, []))
    ∧ (∀ a b ha hb, geomHandle a = some ha → geomHandle b = some hb →
        intersectsOp eng s a b = (.err .engineNotInitialized, []))
    ∧ (∀ a b ha hb, geomHandle a = some ha → geomHandle b = some hb →
        distanceOp eng s a b = (.err .engineNotInitialized, []))
    ∧ (∀ g h r fresh, geomHandle g = some h →
        bufferOp eng s g r fresh = (.err .engineNotInitialized, []))
    ∧ (∀ g h t fresh, geomHandle g = some h →
        simplifyOp eng s g t fresh = (.err .engineNotInitialized, []))
    ∧ (∀ a b ha hb fresh, geomHandle a = some ha → geomHandle b = some hb →
        differenceOp eng s a b fresh = (.err .engineNotInitialized, []))
    ∧ (∀ g0 g1 rest fresh,
        unionOp eng s (g0 :: g1 :: rest) fresh = (.err .engineNotInitialized, []))
    ∧ (∀ fresh, unionOp eng s [] fresh = (.err .noGeometriesProvided, []))
    ∧ (∀ g fresh, unionOp eng s [g] fresh = (.ok g, [])) := by
  refine ⟨?_, ?_, ?_, ?_, ?_, ?_, ?_, ?_, ?_, ?_, ?_⟩
  · intro input fresh; simp [parseGeometry, hs]
  · intro g h hg; simp [toWKTOp, hg, hs]
  · intro a b ha hb h1 h2; simp [withinOp, h1, h2, hs]
  · intro a b ha hb h1 h2; simp [intersectsOp, h1, h2, hs]
  · intro a b ha hb h1 h2; simp [distanceOp, h1, h2, hs]
  · intro g h r fresh hg; simp [bufferOp, hg, hs]
  · intro g h t fresh hg; simp [simplifyOp, hg, hs]
  · intro a b ha hb fresh h1 h2; simp [differenceOp, h1, h2, hs]
  · intro g0 g1 rest fresh; simp [unionOp, hs]
  · intro fresh; rfl
  · intro g fresh; rfl

/-- Witness for `post_teardown_operations_amended` on a torn-down service
state with live operands. -/
theorem post_teardown_operations_amended_witness :
    toWKTOp testEngine { context := none, hasFinalizer := false }
        (some { id := 0, geom := some 4, hasFinalizer := true })
      = (.err .engineNotInitialized, [])
    ∧ unionOp testEngine { context := none, hasFinalizer := false }
        [some { id := 0, geom := some 4, hasFinalizer := true },
         some { id := 1, geom := some 6, hasFinalizer := true }] 0
      = (.err .engineNotInitialized, []) :=
  ⟨(post_teardown_operations_amended testEngine
      { context := none, hasFinalizer := false } rfl).2.1
      (some { id := 0, geom := some 4, hasFinalizer := true }) 4 rfl,
   (post_teardown_operations_amended testEngine
      { context := none, hasFinalizer := false } rfl).2.2.2.2.2.2.2.2.1
      (some { id := 0, geom := some 4, hasFinalizer := true })
      (some { id := 1, geom := some 6, hasFinalizer := true }) [] 0⟩

/-- Claim C2 (amended): ToWKT, Within, Intersects, Distance, Buffer,
Simplify and Difference return the InvalidGeometry error with no engine
call when any Geometry operand is null or has a null native handle;
Union instead silently skips a null or dead entry in its fold (it never
returns InvalidGeometry for one). -/
theorem invalid_operand_amended (eng : Engine) (s : ServiceState) :
    (∀ g, geomHandle g = none → toWKTOp eng s g = (.err .invalidGeometry, []))
    ∧ (∀ a b, geomHandle a = none ∨ geomHandle b = none →
        withinOp eng s a b = (.err .invalidGeometry, []))
    ∧ (∀ a b, geomHandle a = none ∨ geomHandle b = none →
        intersectsOp eng s a b = (.err .invalidGeometry, []))
    ∧ (∀ a b, geomHandle a = none ∨ geomHandle b = none →
        distanceOp eng s a b = (.err .invalidGeometry, []))
    ∧ (∀ g r fresh, geomHandle g = none →
        bufferOp eng s g r fresh = (.err .invalidGeometry, []))
    ∧ (∀ g t fresh, geomHandle g = none →
        simplifyOp eng s g t fresh = (.err .invalidGeometry, []))
    ∧ (∀ a b fresh, geomHandle a = none ∨ geomHandle b = none →
        differenceOp eng s a b fresh = (.err .invalidGeometry, []))
    ∧ (∀ c fresh res bad rest acc, geomHandle bad = none →
        unionFold eng c fresh res (bad :: rest) acc
          = unionFold eng c fresh res rest acc) := by
  refine ⟨?_, ?_, ?_, ?_, ?_, ?_, ?_, ?_⟩
  · intro g hg; simp [toWKTOp, hg]
  · intro a b h
    rcases h with h | h <;> rcases hb : geomHandle b with _ | vb <;>
      rcases ha : geomHandle a with _ | va <;>
      simp_all [withinOp]
  · intro a b h
    rcases h with h | h <;> rcases hb : geomHandle b with _ | vb <;>
      rcases ha : geomHandle a with _ | va <;>
      simp_all [intersectsOp]
  · intro a b h
    rcases h with h | h <;> rcases hb : geomHandle b with _ | vb <;>
      rcases ha : geomHandle a with _ | va <;>
      simp_all [distanceOp]
  · intro g r fresh hg; simp [bufferOp, hg]
  · intro g t fresh hg; simp [simplifyOp, hg]
  · intro a b fresh h
    rcases h with h | h <;> rcases hb : geomHandle b with _ | vb <;>
      rcases ha : geomHandle a with _ | va <;>
      simp_all [differenceOp]
  · intro c fresh res bad rest acc hbad; simp [unionFold, hbad]

/-- Witness for `invalid_operand_amended`: a dead operand makes ToWKT
fail with InvalidGeometry, and the union fold skips a dead entry. -/
theorem invalid_operand_amended_witness :
    toWKTOp testEngine { context := some 0, hasFinalizer := true }
        (some { id := 2, geom := none, hasFinalizer := true })
      = (.err .invalidGeometry, [])
    ∧ unionFold testEngine 0 5 (some { id := 1, geom := some 7, hasFinalizer := true })
        [some { id := 2, geom := none, hasFinalizer := true }] []
      = unionFold testEngine 0 5 (some { id := 1, geom := some 7, hasFinalizer := true }) [] [] :=
  ⟨(invalid_operand_amended testEngine { context := some 0, hasFinalizer := true }).1
      (some { id := 2, geom := none, hasFinalizer := true }) rfl,
   (invalid_operand_amended testEngine { context := some 0, hasFinalizer := true }).2.2.2.2.2.2.2
      0 5 (some { id := 1, geom := some 7, hasFinalizer := true })
      (some { id := 2, geom := none, hasFinalizer := true }) [] [] rfl⟩

/-- Claim C3 (amended): after destroy, the geometry's native handle field
is null only when the owning service's context was live at the time (in
which case the engine's destroy was called on the handle); when the
service had already been torn down, the engine call is skipped and the
handle field is left unchanged.  The finalizer is cancelled in both
cases. -/
theorem destroy_nulls_handle_amended (s : ServiceState) (g : Geometry) :
    (∀ c h, s.context = some c → g.geom = some h →
        destroy (some s) g
          = ({ g with geom := none, hasFinalizer := false }, [.engineDestroy c h]))
    ∧ (s.context = none →
        destroy (some s) g = ({ g with hasFinalizer := false }, [])) := by
  constructor
  · intro c h hc hg; simp [destroy, hc, hg]
  · intro hc
    rcases hg : g.geom with _ | h <;> simp [destroy, hc, hg]

/-- Witness for `destroy_nulls_handle_amended`: live-context destroy
nulls handle 5 and calls the engine; post-teardown destroy keeps it. -/
theorem destroy_nulls_handle_amended_witness :
    destroy (some { context := some 0, hasFinalizer := true })
        { id := 1, geom := some 5, hasFinalizer := true }
      = ({ id := 1, geom := none, hasFinalizer := false }, [.engineDestroy 0 5])
    ∧ destroy (some { context := none, hasFinalizer := false })
        { id := 1, geom := some 5, hasFinalizer := true }
      = ({ id := 1, geom := some 5, hasFinalizer := false }, []) :=
  ⟨(destroy_nulls_handle_amended { context := some 0, hasFinalizer := true }
      { id := 1, geom := some 5, hasFinalizer := true }).1 0 5 rfl rfl,
   (destroy_nulls_handle_amended { context := none, hasFinalizer := false }
      { id := 1, geom := some 5, hasFinalizer := true }).2 rfl⟩

/-- Reduction of the type dispatch of geoJSONToWKT at "Point". -/
theorem geoJSONToWKT_point (coords : JSON) :
    geoJSONToWKT "Point" coords = pointToWKT coords := rfl

/-- Reduction of the type dispatch of geoJSONToWKT at "Polygon". -/
theorem geoJSONToWKT_polygon (coords : JSON) :
    geoJSONToWKT "Polygon" coords = polygonToWKT coords := rfl

/-- Reduction of the type dispatch of geoJSONToWKT at "LineString". -/
theorem geoJSONToWKT_linestring (coords : JSON) :
    geoJSONToWKT "LineString" coords = lineStringToWKT coords := rfl

/-- Claim C7 (confirmed): in ParseGeometry, when the engine parses the
normalized text into a handle but the validity check returns 0 on it, the
handle is destroyed immediately (the trace is exactly parse, isValid,
destroy — in particular no wrapper allocation, so no leak) and the
InvalidGeometry error is returned; and when the normalized text is empty
or no input was supplied at all, an EmptyInput-category error is returned
with no engine call. -/
theorem parse_validity_failure_no_leak (eng : Engine) (s : ServiceState) (c : Nat)
    (input : GeometryInput) (fresh : Nat) (hc : s.context = some c) :
    (∀ w h, normalizeWKT input = .ok w → w ≠ "" → eng.parseWKT c w = some h →
        eng.isValid c h = 0 →
        parseGeometry eng s input fresh
          = (.err (.invalidGeometryWKT w),
             [.engineParse c w, .engineIsValid c h, .engineDestroy c h]))
    ∧ (normalizeWKT input = .ok "" ∨ (input.wkt = "" ∧ input.geoJSON = none) →
        ∃ e, parseGeometry eng s input fresh = (.err e, []) ∧ e.isEmptyInput = true) := by
  constructor
  · intro w h hw hne hp hv
    have hlen : ¬ w.length = 0 := by
      intro h0
      apply hne
      rcases w with ⟨data⟩
      have hd : data = [] := List.length_eq_zero.mp h0
      subst hd
      rfl
    simp [parseGeometry, hc, hw, hlen, hp, hv]
  · rintro (hw | ⟨h1, h2⟩)
    · exact ⟨.emptyWKT, by simp [parseGeometry, hc, hw], rfl⟩
    · have hnorm : normalizeWKT input = .error .noGeometryProvided := by
        simp [normalizeWKT, h1, h2]
      exact ⟨.noGeometryProvided, by simp [parseGeometry, hc, hnorm], rfl⟩

/-- Witness for `parse_validity_failure_no_leak`: an engine that parses
everything to handle 9 and judges handle 9 invalid, plus the no-input
case. -/
theorem parse_validity_failure_no_leak_witness :
    parseGeometry { testEngine with parseWKT := fun _ _ => some 9 }
        { context := some 0, hasFinalizer := true }
        { wkt := "POINT(0 0)", geoJSON := none } 3
      = (.err (.invalidGeometryWKT "POINT(0 0)"),
         [.engineParse 0 "POINT(0 0)", .engineIsValid 0 9, .engineDestroy 0 9])
    ∧ ∃ e, parseGeometry { testEngine with parseWKT := fun _ _ => some 9 }
        { context := some 0, hasFinalizer := true }
        { wkt := "", geoJSON := none } 3 = (.err e, []) ∧ e.isEmptyInput = true :=
  ⟨(parse_validity_failure_no_leak { testEngine with parseWKT := fun _ _ => some 9 }
      { context := some 0, hasFinalizer := true } 0
      { wkt := "POINT(0 0)", geoJSON := none } 3 rfl).1
      "POINT(0 0)" 9 (by simp [normalizeWKT]) (by decide) rfl rfl,
   (parse_validity_failure_no_leak { testEngine with parseWKT := fun _ _ => some 9 }
      { context := some 0, hasFinalizer := true } 0
      { wkt := "", geoJSON := none } 3 rfl).2 (.inr ⟨rfl, rfl⟩)⟩

/-- Claim C8 counterexample: a Point coordinate whose first two elements
fail the float extraction makes the whole conversion fail with an error,
instead of being silently omitted from the emitted text. -/
theorem point_coordinate_error_counterexample :
    geoJSONToWKT "Point" (.arr [.bool true, .bool false])
      = .error "invalid Point coordinates" := rfl

/-- Claim C8 (amended): in the LineString and Polygon conversions, any
coordinate that fails float extraction contributes nothing to the emitted
text (it is silently omitted) and the conversion still succeeds; in the
Point conversion, a failed extraction instead fails the whole conversion
with "invalid Point coordinates". -/
theorem coordinate_omission_amended :
    (∀ i c, extractXY c = none → coordItem i c = "")
    ∧ (∀ items, 2 ≤ items.length →
        geoJSONToWKT "LineString" (.arr items)
          = .ok ("LINESTRING(" ++ coordLoop items ++ ")"))
    ∧ (∀ ring rest, 4 ≤ ring.length →
        geoJSONToWKT "Polygon" (.arr (.arr ring :: rest))
          = .ok ("POLYGON((" ++ coordLoop ring ++ "))"))
    ∧ (∀ c, extractXY c = none →
        geoJSONToWKT "Point" c = .error "invalid Point coordinates") := by
  refine ⟨?_, ?_, ?_, ?_⟩
  · intro i c hc; simp [coordItem, hc]
  · intro items hlen; rw [geoJSONToWKT_linestring]; simp [lineStringToWKT, hlen]
  · intro ring rest hlen; rw [geoJSONToWKT_polygon]; simp [polygonToWKT, hlen]
  · intro c hc; rw [geoJSONToWKT_point]; simp [pointToWKT, hc]

/-- Witness for `coordinate_omission_amended`: a malformed first vertex
in a LineString is dropped while the conversion succeeds, and the same
vertex as a Point fails. -/
theorem coordinate_omission_amended_witness :
    coordItem 0 (.bool true) = ""
    ∧ geoJSONToWKT "LineString" (.arr [.bool true, .arr [.num 1, .num 2]])
        = .ok ("LINESTRING(" ++ coordLoop [.bool true, .arr [.num 1, .num 2]] ++ ")")
    ∧ geoJSONToWKT "Point" (.arr [.bool true, .bool false])
        = .error "invalid Point coordinates" :=
  ⟨coordinate_omission_amended.1 0 (.bool true) rfl,
   coordinate_omission_amended.2.1 [.bool true, .arr [.num 1, .num 2]] (by decide),
   coordinate_omission_amended.2.2.2 (.arr [.bool true, .bool false]) rfl⟩

/-- Claim C9 counterexample: a LineString with exactly one coordinate
pair is rejected with an error; the conversion does not succeed for every
sequence of ≥ 1 pairs. -/
theorem linestring_single_pair_counterexample :
    geoJSONToWKT "LineString" (.arr [.arr [.num 0, .num 0]])
      = .error "invalid LineString coordinates" := rfl

/-- Claim C9 (amended): the LineString conversion succeeds exactly for
coordinate sequences of length ≥ 2 (emitting LINESTRING(…)); sequences of
length < 2 — including a single coordinate pair — fail with
"invalid LineString coordinates".  This layer therefore does impose a
minimum of two top-level entries of its own; remaining vertex validity is
left to the engine's parser. -/
theorem linestring_min_two_amended (items : List JSON) :
    (2 ≤ items.length →
      geoJSONToWKT "LineString" (.arr items)
        = .ok ("LINESTRING(" ++ coordLoop items ++ ")"))
    ∧ (items.length < 2 →
      geoJSONToWKT "LineString" (.arr items)
        = .error "invalid LineString coordinates") := by
  constructor
  · intro h; rw [geoJSONToWKT_linestring]; simp [lineStringToWKT, h]
  · intro h
    rw [geoJSONToWKT_linestring]
    simp [lineStringToWKT, show ¬ 2 ≤ items.length by omega]

/-- Witness for `linestring_min_two_amended` at a two-pair and a one-pair
sequence. -/
theorem linestring_min_two_amended_witness :
    geoJSONToWKT "LineString" (.arr [.arr [.num 0, .num 0], .arr [.num 1, .num 1]])
      = .ok ("LINESTRING("
          ++ coordLoop [.arr [.num 0, .num 0], .arr [.num 1, .num 1]] ++ ")")
    ∧ geoJSONToWKT "LineString" (.arr [.arr [.num 0, .num 0]])
        = .error "invalid LineString coordinates" :=
  ⟨(linestring_min_two_amended [.arr [.num 0, .num 0], .arr [.num 1, .num 1]]).1
      (by decide),
   (linestring_min_two_amended [.arr [.num 0, .num 0]]).2 (by decide)⟩

/-- Claim C10 (confirmed): the Polygon conversion succeeds exactly when
the coordinates value is a non-empty sequence of rings whose first ring
is a sequence of length ≥ 4; on success the emitted text is built from
that first ring alone, and otherwise the error is
"invalid Polygon coordinates". -/
theorem polygon_first_ring_contract (coords : JSON) :
    ((∃ w, geoJSONToWKT "Polygon" coords = .ok w) ↔
      ∃ ring rest, coords = .arr (.arr ring :: rest) ∧ 4 ≤ ring.length)
    ∧ (∀ ring rest, coords = .arr (.arr ring :: rest) → 4 ≤ ring.length →
        geoJSONToWKT "Polygon" coords = .ok ("POLYGON((" ++ coordLoop ring ++ "))"))
    ∧ (¬ (∃ ring rest, coords = .arr (.arr ring :: rest) ∧ 4 ≤ ring.length) →
        geoJSONToWKT "Polygon" coords = .error "invalid Polygon coordinates") := by
  rw [geoJSONToWKT_polygon]
  rcases coords with _ | b | x | st | xs
  · simp [polygonToWKT]
  · simp [polygonToWKT]
  · simp [polygonToWKT]
  · simp [polygonToWKT]
  · rcases xs with _ | ⟨first, rest⟩
    · simp [polygonToWKT]
    · rcases first with _ | b | x | st | ring
      · simp [polygonToWKT]
      · simp [polygonToWKT]
      · simp [polygonToWKT]
      · simp [polygonToWKT]
      · by_cases h4 : 4 ≤ ring.length
        · simp [polygonToWKT, h4]
        · simp [polygonToWKT, h4]
          omega

/-- Witness for `polygon_first_ring_contract` at a four-vertex square
ring followed by a second (ignored) ring. -/
theorem polygon_first_ring_contract_witness :
    geoJSONToWKT "Polygon"
        (.arr [.arr [.arr [.num 0, .num 0], .arr [.num 1, .num 0],
                     .arr [.num 1, .num 1], .arr [.num 0, .num 0]],
               .arr []])
      = .ok ("POLYGON((" ++ coordLoop [.arr [.num 0, .num 0], .arr [.num 1, .num 0],
                     .arr [.num 1, .num 1], .arr [.num 0, .num 0]] ++ "))") :=
  (polygon_first_ring_contract
      (.arr [.arr [.arr [.num 0, .num 0], .arr [.num 1, .num 0],
                   .arr [.num 1, .num 1], .arr [.num 0, .num 0]],
             .arr []])).2.1
    [.arr [.num 0, .num 0], .arr [.num 1, .num 0],
     .arr [.num 1, .num 1], .arr [.num 0, .num 0]]
    [.arr []] rfl (by decide)

end Gogeos
